import Mathlib

/-!
Verification of `src/openai_dive/src/v1/endpoints/audio.rs`: the audio
request/response transcoding layer (speech synthesis, transcription,
translation, streaming synthesis).

The Rust code is shallowly embedded: each `async` method of `Audio` becomes a
pure Lean function parameterised over its external collaborators (the file
resolver `into_part`, and the transport primitives `post_raw`,
`post_with_form`, `post_stream_raw`).  Each function returns the list of
observable side effects it performed (in order) together with its result, so
that ordering claims ("no network call occurs", "file resolution has not been
performed") are statable.
-/

namespace OpenAIAudio

/-- Embedding of `serde_json::Value`.  A number is carried as the literal text
`serde_json` would print for it, since numeric formatting lives in the
(external) `serde_json` crate; all the code under verification does with a
number is stringify it. -/
inductive Json where
  | null : Json
  | bool (b : Bool) : Json
  | num (lit : String) : Json
  | str (s : String) : Json
  | arr (items : List Json) : Json
  | obj (entries : List (String × Json)) : Json
deriving Repr

/-- Whether a JSON value is an object at the top level, i.e. matches the
`Value::Object(map)` arm of the `match` in `create_transcription`. -/
def Json.isObj : Json → Bool
  | .obj _ => true
  | _ => false

/-- One hexadecimal digit, lower case. -/
def hexDigit (n : Nat) : Char :=
  if n < 10 then Char.ofNat (48 + n) else Char.ofNat (87 + n)

/-- Escape of a single character inside a JSON string literal, as produced by
`serde_json`'s serializer (which backs `Value::to_string`). -/
def escapeJsonChar (c : Char) : String :=
  if c = '"' then "\\\""
  else if c = '\\' then "\\\\"
  else if c = '\n' then "\\n"
  else if c = '\r' then "\\r"
  else if c = '\t' then "\\t"
  else if c = '\x08' then "\\b"
  else if c = '\x0c' then "\\f"
  else if c.toNat < 0x20 then
    "\\u00" ++ String.singleton (hexDigit (c.toNat / 16))
      ++ String.singleton (hexDigit (c.toNat % 16))
  else String.singleton c

/-- Escape of a whole string for inclusion between JSON quotes. -/
def escapeJson (s : String) : String :=
  String.join (s.data.map escapeJsonChar)

/-- Embedding of `Value::to_string()`: the compact JSON serialization of a
value (`serde_json`'s `Display` for `Value`). -/
def Json.render : Json → String
  | .null => "null"
  | .bool b => if b then "true" else "false"
  | .num lit => lit
  | .str s => "\"" ++ escapeJson s ++ "\""
  | .arr items =>
      "[" ++ String.intercalate "," (items.attach.map (fun x => Json.render x.1)) ++ "]"
  | .obj entries =>
      "\x7b" ++ String.intercalate ","
          (entries.attach.map
            (fun kv => "\"" ++ escapeJson kv.1.1 ++ "\":" ++ Json.render kv.1.2))
        ++ "\x7d"
decreasing_by
  · have h := List.sizeOf_lt_of_mem x.2
    simp only [Json.arr.sizeOf_spec]
    omega
  · have h := List.sizeOf_lt_of_mem kv.2
    have h2 : sizeOf kv.1.2 < sizeOf kv.1 := by
      obtain ⟨k, v⟩ := kv.1
      simp
    simp only [Json.obj.sizeOf_spec]
    omega

/-- Embedding of `crate::v1::error::APIError` (the error enum lives outside
`src/`; we model the two variants `audio.rs` constructs, `ParseError` and
`BadRequestError`, plus stand-ins for the externally produced failures of the
file resolver and of the transport, per the spec's error taxonomy in §7). -/
inductive APIError where
  | ParseError (msg : String) : APIError
  | BadRequestError (msg : String) : APIError
  | IOError (msg : String) : APIError
  | TransportError (msg : String) : APIError
deriving Repr, DecidableEq

/-- Raw bytes (a `Bytes` buffer), as a list of byte values. -/
def Bytes := List Nat
deriving Repr, DecidableEq

/-- Abstract upload-source reference (`FileUpload`); the file resolver turns
it into a named binary part.  Opaque to this layer, carried as a tag. -/
def UploadSource := String
deriving Repr, DecidableEq

/-- The named binary part the file resolver (`into_part`) produces:
filename + bytes + content type. -/
structure ResolvedFilePart where
  filename : String
  bytes : Bytes
  contentType : String
deriving Repr, DecidableEq

/-- One part of a `reqwest::multipart::Form`: either the binary file part
added by `form.part(name, file)` or a text part added by
`form.text(name, value)`. -/
inductive FormPart where
  | file (name : String) (p : ResolvedFilePart) : FormPart
  | text (name : String) (value : String) : FormPart
deriving Repr, DecidableEq

/-- The name under which a part was added to the form. -/
def FormPart.name : FormPart → String
  | .file n _ => n
  | .text n _ => n

/-- Embedding of `AudioSpeechParameters`.  Modelled from the spec: the struct
definition lives in `resources/audio.rs`, which is not under `src/`; per §3
it has model, input, voice, response_format, speed, and (per §4.3/§8, which
speak of the caller supplying a `voice_text` value that is then discarded) a
provider-specific `voice_text` field.  Enum- and float-valued fields are
carried as their canonical string forms, since this layer only copies or
stringifies them. -/
structure AudioSpeechParameters where
  model : String
  input : String
  voice : String
  voice_text : Option String
  response_format : Option String
  speed : Option String
deriving Repr, DecidableEq

/-- Embedding of `StreamAudioSpeechParameters` (same modelling conventions). -/
structure StreamAudioSpeechParameters where
  model : String
  input : String
  voice : String
  voice_text : Option String
  response_format : Option String
  speed : Option String
  stream : Bool
deriving Repr, DecidableEq

/-- Embedding of `AudioTranscriptionParameters` (struct defined outside
`src/`; fields are exactly those `create_transcription` reads, enum/float
fields carried as the strings their `to_string()` yields). -/
structure AudioTranscriptionParameters where
  file : UploadSource
  model : String
  prompt : Option String
  language : Option String
  chunking_strategy : Option String
  response_format : Option String
  stream : Option Bool
  temperature : Option String
  timestamp_granularities : Option (List String)
  extra_body : Option Json
deriving Repr

/-- Embedding of `AudioTranslationParameters`. -/
structure AudioTranslationParameters where
  file : UploadSource
  model : String
  prompt : Option String
  response_format : Option String
  temperature : Option String
deriving Repr, DecidableEq

/-- Embedding of `AudioSpeechResponse`: opaque response bytes. -/
structure AudioSpeechResponse where
  bytes : Bytes
deriving Repr, DecidableEq

/-- Embedding of `AudioSpeechResponseChunkResponse`: one streamed chunk. -/
structure AudioSpeechResponseChunkResponse where
  bytes : Bytes
deriving Repr, DecidableEq

/-- The `Audio` endpoint handle: holds the optional request converter
(`Option<Box<dyn Fn(&Value) -> Value>>`); the client reference is embedded as
the transport function arguments of each operation. -/
structure Audio where
  request_converter : Option (Json → Json)

/-- Embedding of `Client::audio()`: a fresh handle has no converter. -/
def Client.audio : Audio := { request_converter := none }

/-- Embedding of `set_request_converter`. -/
def Audio.set_request_converter (a : Audio) (converter : Json → Json) : Audio :=
  { a with request_converter := some converter }

/-- The body handed to the JSON POST primitive `post_raw`: either the typed
parameter struct itself (serialized later by the transport) or an explicit
`serde_json::Value` produced by the converter. -/
inductive SpeechBody where
  | typed (p : AudioSpeechParameters) : SpeechBody
  | json (v : Json) : SpeechBody

/-- Observable side effects of one operation, in order of occurrence:
`serializeParams` is the `serde_json::to_value` call, `convertParams` the
converter invocation, `resolveFile` the `file.into_part()` call, and the three
`*Post` events are calls into the transport collaborator. -/
inductive Event where
  | serializeParams : Event
  | convertParams : Event
  | resolveFile : Event
  | jsonPost (path : String) (body : SpeechBody) : Event
  | multipartPost (path : String) (form : List FormPart) : Event
  | streamPost (path : String) (body : StreamAudioSpeechParameters) : Event

/-- Outcome of `create_speech_stream`: because the source calls `.unwrap()`
on the dispatch result, a dispatch-time error does not become an `Err` return
but a panic, which we record explicitly. -/
inductive StreamOutcome where
  | panicked (e : APIError) : StreamOutcome
  | ok (chunks : List (Except APIError AudioSpeechResponseChunkResponse)) : StreamOutcome

/-- Helper for the `if let Some(x) = field then form = form.text(name, x)`
pattern: the (zero or one) text parts an optional field contributes. -/
def opt_text (name : String) : Option String → List FormPart
  | some s => [.text name s]
  | none => []

/-- Rust `bool::to_string()`. -/
def boolString (b : Bool) : String := if b then "true" else "false"

/-- Embedding of `create_speech` (lines 44-62).  With a converter installed it
serializes the parameters (`serde_json::to_value`, abstracted as the fallible
`to_value` argument since the derived `Serialize` impl lives outside `src/`),
maps failure to `ParseError`, applies the converter and posts the converted
value; with no converter it posts the typed parameters directly. -/
def create_speech (a : Audio)
    (to_value : AudioSpeechParameters → Except String Json)
    (post_raw : String → SpeechBody → Except APIError Bytes)
    (parameters : AudioSpeechParameters) :
    List Event × Except APIError AudioSpeechResponse :=
  match a.request_converter with
  | some converter =>
    match to_value parameters with
    | .error e => ([.serializeParams], .error (.ParseError e))
    | .ok params_value =>
      let converted_params := converter params_value
      match post_raw "/audio/speech" (.json converted_params) with
      | .error e =>
        ([.serializeParams, .convertParams,
          .jsonPost "/audio/speech" (.json converted_params)], .error e)
      | .ok bytes =>
        ([.serializeParams, .convertParams,
          .jsonPost "/audio/speech" (.json converted_params)],
         .ok { bytes := bytes })
  | none =>
    match post_raw "/audio/speech" (.typed parameters) with
    | .error e => ([.jsonPost "/audio/speech" (.typed parameters)], .error e)
    | .ok bytes =>
      ([.jsonPost "/audio/speech" (.typed parameters)], .ok { bytes := bytes })

/-- The form parts `create_transcription` adds before it examines
`extra_body` (lines 69-110): the resolved file part, the mandatory `model`
text part, the optional scalar fields, and the comma-joined
`timestamp_granularities` list. -/
def transcription_base_parts (filePart : ResolvedFilePart)
    (p : AudioTranscriptionParameters) : List FormPart :=
  [.file "file" filePart]
    ++ [.text "model" p.model]
    ++ opt_text "prompt" p.prompt
    ++ opt_text "language" p.language
    ++ opt_text "chunking_strategy" p.chunking_strategy
    ++ opt_text "response_format" p.response_format
    ++ opt_text "stream" (p.stream.map boolString)
    ++ opt_text "temperature" p.temperature
    ++ (match p.timestamp_granularities with
        | some ts => [.text "timestamp_granularities" (String.intercalate "," ts)]
        | none => [])

/-- The complete multipart form of `create_transcription` (lines 69-125):
the base parts followed by the `extra_body` handling, which accepts any
top-level JSON object (one text part per entry, value stringified with
`Value::to_string()`) and rejects every other shape with
`BadRequestError`. -/
def transcription_parts (filePart : ResolvedFilePart)
    (p : AudioTranscriptionParameters) : Except APIError (List FormPart) :=
  let form := transcription_base_parts filePart p
  match p.extra_body with
  | some (.obj entries) =>
      .ok (form ++ entries.map (fun kv => .text kv.1 kv.2.render))
  | some _ =>
      .error (.BadRequestError "extra_body must be formatted as a map of key: value")
  | none => .ok form

/-- Embedding of `create_transcription` (lines 65-133), parameterised over the
file resolver (`into_part`) and the multipart transport (`post_with_form`).
The file is resolved first; a resolver error propagates unchanged; a malformed
`extra_body` aborts before the transport is called; otherwise the form is
dispatched to `/audio/transcriptions`. -/
def create_transcription
    (resolve : UploadSource → Except APIError ResolvedFilePart)
    (post_with_form : String → List FormPart → Except APIError String)
    (parameters : AudioTranscriptionParameters) :
    List Event × Except APIError String :=
  match resolve parameters.file with
  | .error e => ([.resolveFile], .error e)
  | .ok filePart =>
    match transcription_parts filePart parameters with
    | .error e => ([.resolveFile], .error e)
    | .ok form =>
      match post_with_form "/audio/transcriptions" form with
      | .error e =>
        ([.resolveFile, .multipartPost "/audio/transcriptions" form], .error e)
      | .ok response =>
        ([.resolveFile, .multipartPost "/audio/transcriptions" form], .ok response)

/-- The multipart form of `create_translation` (lines 140-157): file, model,
and the three optional scalar fields. -/
def translation_parts (filePart : ResolvedFilePart)
    (p : AudioTranslationParameters) : List FormPart :=
  [.file "file" filePart]
    ++ [.text "model" p.model]
    ++ opt_text "prompt" p.prompt
    ++ opt_text "response_format" p.response_format
    ++ opt_text "temperature" p.temperature

/-- Embedding of `create_translation` (lines 136-165). -/
def create_translation
    (resolve : UploadSource → Except APIError ResolvedFilePart)
    (post_with_form : String → List FormPart → Except APIError String)
    (parameters : AudioTranslationParameters) :
    List Event × Except APIError String :=
  match resolve parameters.file with
  | .error e => ([.resolveFile], .error e)
  | .ok filePart =>
    let form := translation_parts filePart parameters
    match post_with_form "/audio/translations" form with
    | .error e =>
      ([.resolveFile, .multipartPost "/audio/translations" form], .error e)
    | .ok response =>
      ([.resolveFile, .multipartPost "/audio/translations" form], .ok response)

/-- The `StreamAudioSpeechParameters` literal built inside
`create_speech_stream` (lines 178-186): `stream` forced to `true`,
`voice_text` forced to `None`, the five remaining fields copied. -/
def build_stream_parameters (p : AudioSpeechParameters) :
    StreamAudioSpeechParameters :=
  { model := p.model
    input := p.input
    voice := p.voice
    voice_text := none
    response_format := p.response_format
    speed := p.speed
    stream := true }

/-- Embedding of `create_speech_stream` (lines 169-197), parameterised over
the streaming transport `post_stream_raw`, whose successful result is the
finite sequence of fallible raw byte chunks.  The source code calls
`.unwrap()` on the dispatch result, so a dispatch error is a panic
(`StreamOutcome.panicked`), not an `Err` return; on success each raw chunk is
wrapped via `Result::map` into a typed chunk and each source error is left
unchanged. -/
def create_speech_stream (_a : Audio)
    (post_stream_raw : String → StreamAudioSpeechParameters →
      Except APIError (List (Except APIError Bytes)))
    (parameters : AudioSpeechParameters) :
    List Event × StreamOutcome :=
  let stream_parameters := build_stream_parameters parameters
  match post_stream_raw "/audio/speech" stream_parameters with
  | .error e => ([.streamPost "/audio/speech" stream_parameters], .panicked e)
  | .ok raw =>
    ([.streamPost "/audio/speech" stream_parameters],
     .ok (raw.map (fun item => item.map (fun bytes => { bytes := bytes }))))

/-- Parts of a form carrying a given name. -/
def partsNamed (n : String) (form : List FormPart) : List FormPart :=
  form.filter (fun part => part.name == n)

/-! Concrete collaborators and parameter values used to instantiate the
theorems below. -/

/-- A concrete resolved file part. -/
def sampleFilePart : ResolvedFilePart :=
  { filename := "audio.wav", bytes := [82, 73, 70, 70], contentType := "audio/wav" }

/-- A file resolver that always succeeds with `sampleFilePart`. -/
def okResolve : UploadSource → Except APIError ResolvedFilePart :=
  fun _ => .ok sampleFilePart

/-- A file resolver that always fails. -/
def failResolve : UploadSource → Except APIError ResolvedFilePart :=
  fun _ => .error (.IOError "file open failed")

/-- A multipart transport that always succeeds. -/
def okForm : String → List FormPart → Except APIError String :=
  fun _ _ => .ok "transcript"

/-- Transcription parameters with every optional field absent. -/
def minTranscription (file model : String) : AudioTranscriptionParameters :=
  { file := file, model := model, prompt := none, language := none,
    chunking_strategy := none, response_format := none, stream := none,
    temperature := none, timestamp_granularities := none, extra_body := none }

/-- Translation parameters with every optional field absent. -/
def minTranslation (file model : String) : AudioTranslationParameters :=
  { file := file, model := model, prompt := none, response_format := none,
    temperature := none }

/-- Concrete speech parameters, with a non-empty `voice_text`. -/
def sampleSpeech : AudioSpeechParameters :=
  { model := "tts-1", input := "hello", voice := "alloy",
    voice_text := some "narrator voice", response_format := some "mp3",
    speed := some "1.0" }

/-! Unfolding lemmas for `Json.render` (defined by well-founded recursion,
so it does not reduce definitionally; these restate its equations without
`List.attach`). -/

theorem Json.render_null : Json.render .null = "null" := by
  simp [Json.render]

theorem Json.render_bool (b : Bool) :
    Json.render (.bool b) = if b then "true" else "false" := by
  simp [Json.render]

theorem Json.render_num (lit : String) : Json.render (.num lit) = lit := by
  simp [Json.render]

theorem Json.render_str (s : String) :
    Json.render (.str s) = "\"" ++ escapeJson s ++ "\"" := by
  simp [Json.render]

theorem Json.render_arr (items : List Json) :
    Json.render (.arr items)
      = "[" ++ String.intercalate "," (items.map Json.render) ++ "]" := by
  rw [Json.render]
  simp only [List.attach_map_val]

theorem Json.render_obj (entries : List (String × Json)) :
    Json.render (.obj entries)
      = "\x7b" ++ String.intercalate ","
          (entries.map (fun kv => "\"" ++ escapeJson kv.1 ++ "\":" ++ Json.render kv.2))
        ++ "\x7d" := by
  rw [Json.render]
  exact congrArg (fun t => "\x7b" ++ String.intercalate "," t ++ "\x7d")
    (List.attach_map_val entries
      (fun kv => "\"" ++ escapeJson kv.1 ++ "\":" ++ Json.render kv.2))

/-! Helper lemmas about forms. -/

theorem partsNamed_append (n : String) (xs ys : List FormPart) :
    partsNamed n (xs ++ ys) = partsNamed n xs ++ partsNamed n ys :=
  List.filter_append xs ys

theorem partsNamed_opt_text_ne (n m : String) (v : Option String)
    (h : (m == n) = false) : partsNamed n (opt_text m v) = [] := by
  cases v <;> simp [opt_text, partsNamed, FormPart.name, h]

/-- C3: the code violates this claim.  When the streaming transport primitive
`post_stream_raw` fails at dispatch time, `create_speech_stream` does not
return the error: the source calls `.unwrap()` on the dispatch result (line
192 of `audio.rs`), so the operation panics.  This theorem evaluates the
embedding at such a failing input and shows the outcome is the panic, not an
error return. -/
theorem C3_dispatch_error_panics :
    create_speech_stream Client.audio
        (fun _ _ => .error (.TransportError "connection refused")) sampleSpeech
      = ([Event.streamPost "/audio/speech" (build_stream_parameters sampleSpeech)],
         StreamOutcome.panicked (.TransportError "connection refused")) := rfl

/-- C4: the streaming parameter variant built by `create_speech_stream`
always has `stream = true` and `voice_text = none`, whatever the caller put
in the input parameters, while `model`, `input`, `voice`, `response_format`
and `speed` are copied unchanged; and the dispatched streaming body is
exactly this variant. -/
theorem C4_stream_parameters (p : AudioSpeechParameters) (a : Audio)
    (post : String → StreamAudioSpeechParameters →
      Except APIError (List (Except APIError Bytes))) :
    (build_stream_parameters p).stream = true
    ∧ (build_stream_parameters p).voice_text = none
    ∧ (build_stream_parameters p).model = p.model
    ∧ (build_stream_parameters p).input = p.input
    ∧ (build_stream_parameters p).voice = p.voice
    ∧ (build_stream_parameters p).response_format = p.response_format
    ∧ (build_stream_parameters p).speed = p.speed
    ∧ (create_speech_stream a post p).1
        = [Event.streamPost "/audio/speech" (build_stream_parameters p)] := by
  refine ⟨rfl, rfl, rfl, rfl, rfl, rfl, rfl, ?_⟩
  cases h : post "/audio/speech" (build_stream_parameters p) <;>
    simp [create_speech_stream, h]

/-- C9: when the streaming source yields a sequence of raw items, the decoded
stream maps each raw byte chunk to a successful typed chunk and forwards each
source error unchanged, preserving order and length; in particular a source
yielding chunk1, chunk2, error decodes to exactly Ok chunk1, Ok chunk2,
Err error, and then the (finite) sequence ends. -/
theorem C9_stream_decoding (a : Audio) (p : AudioSpeechParameters)
    (raw : List (Except APIError Bytes)) (c1 c2 : Bytes) (e : APIError) :
    (create_speech_stream a (fun _ _ => .ok raw) p).2
      = .ok (raw.map (fun item => item.map
          (fun bytes => ({ bytes := bytes } : AudioSpeechResponseChunkResponse))))
    ∧ (create_speech_stream a (fun _ _ => .ok [.ok c1, .ok c2, .error e]) p).2
      = .ok [.ok { bytes := c1 }, .ok { bytes := c2 }, .error e]
    ∧ (raw.map (fun item => item.map
          (fun bytes => ({ bytes := bytes } : AudioSpeechResponseChunkResponse)))).length
        = raw.length := by
  exact ⟨rfl, rfl, List.length_map _ _⟩

/-- C1 counterexample: at a concrete transcription request whose `extra_body`
is a JSON array, the claim "the ValidationError is raised before any other
side effect; in particular the upload-source file resolution has not been
performed" is false: the effect trace of the call is `[resolveFile]`, i.e.
the file resolution was performed before the validation error was returned
(first conjunct); moreover, when the resolver itself fails on the same
malformed request, its `IOError` is what comes back — the resolution strictly
precedes the `extra_body` check (second conjunct). -/
theorem C1_resolution_precedes_validation :
    (create_transcription okResolve okForm
        { minTranscription "audio.wav" "whisper-1" with
            extra_body := some (Json.arr []) })
      = ([Event.resolveFile],
         Except.error (APIError.BadRequestError
           "extra_body must be formatted as a map of key: value"))
    ∧ (create_transcription failResolve okForm
        { minTranscription "audio.wav" "whisper-1" with
            extra_body := some (Json.arr []) })
      = ([Event.resolveFile], Except.error (APIError.IOError "file open failed")) :=
  ⟨rfl, rfl⟩

/-- C1 (amended): when `extra_body` is present and is not a JSON object and
the file resolver succeeds, `create_transcription` fails with the
ValidationError and performs no network call (the effect trace is exactly
`[resolveFile]`, with no multipart dispatch) — but only after the
upload-source file resolution has been performed. -/
theorem C1_extra_body_validation
    (resolve : UploadSource → Except APIError ResolvedFilePart)
    (post_with_form : String → List FormPart → Except APIError String)
    (p : AudioTranscriptionParameters) (fp : ResolvedFilePart) (v : Json)
    (hres : resolve p.file = .ok fp)
    (hv : p.extra_body = some v) (hobj : v.isObj = false) :
    create_transcription resolve post_with_form p
      = ([Event.resolveFile],
         .error (.BadRequestError
           "extra_body must be formatted as a map of key: value")) := by
  unfold create_transcription transcription_parts
  rw [hres, hv]
  cases v <;> simp_all [Json.isObj]

/-- Witness for C1: the amended theorem applied at a concrete request whose
`extra_body` is a scalar JSON string. -/
theorem C1_extra_body_validation_witness :
    create_transcription okResolve okForm
        { minTranscription "audio.wav" "whisper-1" with
            extra_body := some (Json.str "not a map") }
      = ([Event.resolveFile],
         .error (.BadRequestError
           "extra_body must be formatted as a map of key: value")) :=
  C1_extra_body_validation okResolve okForm _ sampleFilePart
    (Json.str "not a map") rfl rfl rfl

/-- C2 counterexample: the claim says an `extra_body` object one of whose
values is itself an array (nested-without-flattening) is rejected with a
ValidationError before any transport call.  At the concrete request with
`extra_body = obj [a := arr [1]]` the code instead accepts the body: the
nested value is stringified to "[1]", becomes an ordinary text part, and the
multipart POST is dispatched and succeeds. -/
theorem C2_nested_value_accepted :
    create_transcription okResolve okForm
        { minTranscription "audio.wav" "whisper-1" with
            extra_body := some (Json.obj [("a", Json.arr [Json.num "1"])]) }
      = ([Event.resolveFile,
          Event.multipartPost "/audio/transcriptions"
            [FormPart.file "file" sampleFilePart,
             FormPart.text "model" "whisper-1",
             FormPart.text "a" "[1]"]],
         Except.ok "transcript") := by
  have h : Json.render (Json.arr [Json.num "1"]) = "[1]" := by
    simp only [Json.render_arr, Json.render_num, List.map_cons, List.map_nil]
    rfl
  simp [create_transcription, transcription_parts, transcription_base_parts,
        opt_text, minTranscription, okResolve, okForm, h]

/-- C2 (amended): a present `extra_body` is accepted exactly when it is a
JSON object at top level — its values need not be scalars; nested arrays or
objects are stringified, not rejected.  Every non-object shape (array or
scalar) is rejected with the ValidationError before any transport call.  For
an accepted object, each top-level key yields exactly one multipart text part
named by that key with the stringified value, and dispatch proceeds. -/
theorem C2_extra_body_object_iff
    (resolve : UploadSource → Except APIError ResolvedFilePart)
    (post_with_form : String → List FormPart → Except APIError String)
    (p : AudioTranscriptionParameters) (fp : ResolvedFilePart)
    (entries : List (String × Json))
    (hres : resolve p.file = .ok fp) :
    (p.extra_body = some (Json.obj entries) →
      transcription_parts fp p
        = .ok (transcription_base_parts fp p
            ++ entries.map (fun kv => FormPart.text kv.1 kv.2.render))
      ∧ (create_transcription resolve post_with_form p).1
        = [Event.resolveFile,
           Event.multipartPost "/audio/transcriptions"
             (transcription_base_parts fp p
               ++ entries.map (fun kv => FormPart.text kv.1 kv.2.render))])
    ∧ (∀ w : Json, p.extra_body = some w → w.isObj = false →
        create_transcription resolve post_with_form p
          = ([Event.resolveFile],
             .error (.BadRequestError
               "extra_body must be formatted as a map of key: value"))) := by
  constructor
  · intro h
    refine ⟨by simp [transcription_parts, h], ?_⟩
    cases hpost : post_with_form "/audio/transcriptions"
        (transcription_base_parts fp p
          ++ entries.map (fun kv => FormPart.text kv.1 kv.2.render)) <;>
      simp [create_transcription, transcription_parts, hres, h, hpost]
  · intro w hw hobj
    unfold create_transcription transcription_parts
    rw [hres, hw]
    cases w <;> simp_all [Json.isObj]

/-- Witness for C2: the amended theorem applied at concrete requests — an
`extra_body` object with a boolean value is dispatched with one text part per
key, and a scalar (number) `extra_body` is rejected before transport. -/
theorem C2_extra_body_object_iff_witness :
    (create_transcription okResolve okForm
        { minTranscription "in.wav" "model-x" with
            extra_body := some (Json.obj [("k", Json.bool true)]) }).1
      = [Event.resolveFile,
         Event.multipartPost "/audio/transcriptions"
           (transcription_base_parts sampleFilePart
               { minTranscription "in.wav" "model-x" with
                   extra_body := some (Json.obj [("k", Json.bool true)]) }
             ++ [FormPart.text "k" (Json.render (Json.bool true))])]
    ∧ create_transcription okResolve okForm
        { minTranscription "in.wav" "model-x" with
            extra_body := some (Json.num "7") }
      = ([Event.resolveFile],
         .error (.BadRequestError
           "extra_body must be formatted as a map of key: value")) := by
  have h := C2_extra_body_object_iff okResolve okForm
      { minTranscription "in.wav" "model-x" with
          extra_body := some (Json.obj [("k", Json.bool true)]) }
      sampleFilePart [("k", Json.bool true)] rfl
  have h2 := C2_extra_body_object_iff okResolve okForm
      { minTranscription "in.wav" "model-x" with
          extra_body := some (Json.num "7") }
      sampleFilePart [] rfl
  exact ⟨(h.1 rfl).2, h2.2 (Json.num "7") rfl rfl⟩

/-- C5: with a converter installed, `create_speech` serializes the
parameters, applies the converter, and dispatches the converter's output as
the JSON body (the effect trace is serialize, convert, then a JSON POST whose
body is the converted value); `create_speech_stream` never applies the
converter — its outcome is independent of the handle's converter and its
dispatched body is the streaming parameter variant itself. -/
theorem C5_converter_asymmetry (conv : Json → Json)
    (to_value : AudioSpeechParameters → Except String Json)
    (post_raw : String → SpeechBody → Except APIError Bytes)
    (post_stream_raw : String → StreamAudioSpeechParameters →
      Except APIError (List (Except APIError Bytes)))
    (p : AudioSpeechParameters) (v : Json) (a b : Audio)
    (h : to_value p = .ok v) :
    (create_speech { request_converter := some conv } to_value post_raw p).1
      = [Event.serializeParams, Event.convertParams,
         Event.jsonPost "/audio/speech" (SpeechBody.json (conv v))]
    ∧ create_speech_stream a post_stream_raw p
        = create_speech_stream b post_stream_raw p
    ∧ (create_speech_stream a post_stream_raw p).1
        = [Event.streamPost "/audio/speech" (build_stream_parameters p)] := by
  refine ⟨?_, rfl, ?_⟩
  · cases hpost : post_raw "/audio/speech" (SpeechBody.json (conv v)) <;>
      simp [create_speech, h, hpost]
  · cases hpost : post_stream_raw "/audio/speech" (build_stream_parameters p) <;>
      simp [create_speech_stream, hpost]

/-- Witness for C5: the asymmetry at a concrete handle whose converter adds a
marker field, with concrete serialization and transports. -/
theorem C5_converter_asymmetry_witness :
    (create_speech
        { request_converter := some (fun _ => Json.obj [("marker", Json.bool true)]) }
        (fun _ => .ok Json.null) (fun _ _ => .ok [1]) sampleSpeech).1
      = [Event.serializeParams, Event.convertParams,
         Event.jsonPost "/audio/speech"
           (SpeechBody.json (Json.obj [("marker", Json.bool true)]))]
    ∧ (create_speech_stream Client.audio (fun _ _ => .ok []) sampleSpeech).1
        = [Event.streamPost "/audio/speech" (build_stream_parameters sampleSpeech)] := by
  have h := C5_converter_asymmetry
      (fun _ => Json.obj [("marker", Json.bool true)])
      (fun _ => .ok Json.null) (fun _ _ => .ok [1]) (fun _ _ => .ok [])
      sampleSpeech Json.null Client.audio Client.audio rfl
  exact ⟨h.1, h.2.2⟩

/-- C6: with a converter installed, a failure of the canonical serialization
step makes `create_speech` return a `ParseError` (the SerializationError)
with effect trace exactly `[serializeParams]` — so the converter has not been
invoked and nothing has been dispatched; with no converter installed, the
typed parameters are dispatched directly as the JSON body, with no
serialization event of this layer at all. -/
theorem C6_serialization_error (conv : Json → Json)
    (to_value : AudioSpeechParameters → Except String Json)
    (post_raw : String → SpeechBody → Except APIError Bytes)
    (p : AudioSpeechParameters) (e : String)
    (h : to_value p = .error e) :
    create_speech { request_converter := some conv } to_value post_raw p
      = ([Event.serializeParams], .error (.ParseError e))
    ∧ ∀ (to_value2 : AudioSpeechParameters → Except String Json)
        (post_raw2 : String → SpeechBody → Except APIError Bytes)
        (p2 : AudioSpeechParameters),
        (create_speech { request_converter := none } to_value2 post_raw2 p2).1
          = [Event.jsonPost "/audio/speech" (SpeechBody.typed p2)] := by
  refine ⟨by simp [create_speech, h], ?_⟩
  intro to_value2 post_raw2 p2
  cases hpost : post_raw2 "/audio/speech" (SpeechBody.typed p2) <;>
    simp [create_speech, hpost]

/-- Witness for C6: a serialization step that fails with "unsupported value"
yields the ParseError with no converter invocation and no dispatch. -/
theorem C6_serialization_error_witness :
    create_speech { request_converter := some (fun v => v) }
        (fun _ => .error "unsupported value") (fun _ _ => .ok [1]) sampleSpeech
      = ([Event.serializeParams], .error (.ParseError "unsupported value"))
    ∧ (create_speech { request_converter := none }
        (fun _ => .error "unsupported value") (fun _ _ => .ok [1]) sampleSpeech).1
      = [Event.jsonPost "/audio/speech" (SpeechBody.typed sampleSpeech)] := by
  have h := C6_serialization_error (fun v => v)
      (fun _ => .error "unsupported value") (fun _ _ => .ok [1]) sampleSpeech
      "unsupported value" rfl
  exact ⟨h.1, h.2 _ _ sampleSpeech⟩

theorem opt_text_none (n : String) : opt_text n none = [] := rfl

theorem opt_text_some (n s : String) : opt_text n (some s) = [.text n s] := rfl

theorem partsNamed_text_ne (n m v : String) (h : (m == n) = false) :
    partsNamed n [FormPart.text m v] = [] := by
  simp [partsNamed, FormPart.name, h]

theorem partsNamed_file_ne (n m : String) (fp : ResolvedFilePart)
    (h : (m == n) = false) : partsNamed n [FormPart.file m fp] = [] := by
  simp [partsNamed, FormPart.name, h]

theorem partsNamed_text_eq (n v : String) :
    partsNamed n [FormPart.text n v] = [FormPart.text n v] := by
  simp [partsNamed, FormPart.name]

theorem partsNamed_nil (n : String) : partsNamed n [] = [] := rfl

/-- C7: in both multipart operations every optional field left unset yields
no part of that name at all; and a translation request with only `file` and
`model` set dispatches a multipart body whose parts are exactly the file part
and the `model` part. -/
theorem C7_optional_field_omission (fp : ResolvedFilePart)
    (q : AudioTranslationParameters) (p : AudioTranscriptionParameters)
    (post_with_form : String → List FormPart → Except APIError String) :
    (q.prompt = none → partsNamed "prompt" (translation_parts fp q) = [])
    ∧ (q.response_format = none →
        partsNamed "response_format" (translation_parts fp q) = [])
    ∧ (q.temperature = none →
        partsNamed "temperature" (translation_parts fp q) = [])
    ∧ (p.prompt = none →
        partsNamed "prompt" (transcription_base_parts fp p) = [])
    ∧ (p.language = none →
        partsNamed "language" (transcription_base_parts fp p) = [])
    ∧ (p.chunking_strategy = none →
        partsNamed "chunking_strategy" (transcription_base_parts fp p) = [])
    ∧ (p.response_format = none →
        partsNamed "response_format" (transcription_base_parts fp p) = [])
    ∧ (p.stream = none →
        partsNamed "stream" (transcription_base_parts fp p) = [])
    ∧ (p.temperature = none →
        partsNamed "temperature" (transcription_base_parts fp p) = [])
    ∧ (p.timestamp_granularities = none →
        partsNamed "timestamp_granularities" (transcription_base_parts fp p) = [])
    ∧ (∀ file model,
        (create_translation (fun _ => .ok fp) post_with_form
            (minTranslation file model)).1
          = [Event.resolveFile,
             Event.multipartPost "/audio/translations"
               [FormPart.file "file" fp, FormPart.text "model" model]]) := by
  refine ⟨?_, ?_, ?_, ?_, ?_, ?_, ?_, ?_, ?_, ?_, ?_⟩
  · intro h
    simp only [translation_parts, h, opt_text_none, partsNamed_append,
      partsNamed_opt_text_ne, partsNamed_text_ne, partsNamed_file_ne,
      partsNamed_nil, String.reduceBEq, List.append_nil, List.nil_append]
  · intro h
    simp only [translation_parts, h, opt_text_none, partsNamed_append,
      partsNamed_opt_text_ne, partsNamed_text_ne, partsNamed_file_ne,
      partsNamed_nil, String.reduceBEq, List.append_nil, List.nil_append]
  · intro h
    simp only [translation_parts, h, opt_text_none, partsNamed_append,
      partsNamed_opt_text_ne, partsNamed_text_ne, partsNamed_file_ne,
      partsNamed_nil, String.reduceBEq, List.append_nil, List.nil_append]
  all_goals try
    (intro h
     simp only [transcription_base_parts, h, Option.map_none', opt_text_none]
     cases h6 : p.timestamp_granularities <;>
       simp only [h6, opt_text_none, partsNamed_append,
         partsNamed_opt_text_ne, partsNamed_text_ne, partsNamed_file_ne,
         partsNamed_nil, String.reduceBEq, List.append_nil, List.nil_append])
  · intro file model
    cases hpost : post_with_form "/audio/translations"
        [FormPart.file "file" fp, FormPart.text "model" model] <;>
      simp [create_translation, translation_parts, minTranslation,
            opt_text, hpost]

/-- Witness for C7: every omission implication discharged at concrete
requests in which all optional fields are absent, plus the concrete
translation scenario. -/
theorem C7_optional_field_omission_witness :
    partsNamed "prompt"
        (translation_parts sampleFilePart (minTranslation "a.wav" "m")) = []
    ∧ partsNamed "response_format"
        (translation_parts sampleFilePart (minTranslation "a.wav" "m")) = []
    ∧ partsNamed "temperature"
        (translation_parts sampleFilePart (minTranslation "a.wav" "m")) = []
    ∧ partsNamed "prompt"
        (transcription_base_parts sampleFilePart (minTranscription "a.wav" "m")) = []
    ∧ partsNamed "language"
        (transcription_base_parts sampleFilePart (minTranscription "a.wav" "m")) = []
    ∧ partsNamed "chunking_strategy"
        (transcription_base_parts sampleFilePart (minTranscription "a.wav" "m")) = []
    ∧ partsNamed "response_format"
        (transcription_base_parts sampleFilePart (minTranscription "a.wav" "m")) = []
    ∧ partsNamed "stream"
        (transcription_base_parts sampleFilePart (minTranscription "a.wav" "m")) = []
    ∧ partsNamed "temperature"
        (transcription_base_parts sampleFilePart (minTranscription "a.wav" "m")) = []
    ∧ partsNamed "timestamp_granularities"
        (transcription_base_parts sampleFilePart (minTranscription "a.wav" "m")) = []
    ∧ (create_translation (fun _ => .ok sampleFilePart) okForm
          (minTranslation "a.wav" "m")).1
        = [Event.resolveFile,
           Event.multipartPost "/audio/translations"
             [FormPart.file "file" sampleFilePart, FormPart.text "model" "m"]] := by
  obtain ⟨h1, h2, h3, h4, h5, h6, h7, h8, h9, h10, h11⟩ :=
    C7_optional_field_omission sampleFilePart (minTranslation "a.wav" "m")
      (minTranscription "a.wav" "m") okForm
  exact ⟨h1 rfl, h2 rfl, h3 rfl, h4 rfl, h5 rfl, h6 rfl, h7 rfl, h8 rfl,
         h9 rfl, h10 rfl, h11 "a.wav" "m"⟩

/-- C8: a present `timestamp_granularities` list is serialized as exactly one
multipart text part whose value is the elements joined with a comma in their
original order; in particular the list `[word, segment]` yields the single
part value "word,segment". -/
theorem C8_timestamp_granularities (fp : ResolvedFilePart)
    (p : AudioTranscriptionParameters) (gs : List String)
    (h : p.timestamp_granularities = some gs) :
    partsNamed "timestamp_granularities" (transcription_base_parts fp p)
      = [FormPart.text "timestamp_granularities" (String.intercalate "," gs)]
    ∧ partsNamed "timestamp_granularities"
        (transcription_base_parts fp
          { minTranscription "audio.wav" "whisper-1" with
              timestamp_granularities := some ["word", "segment"] })
      = [FormPart.text "timestamp_granularities" "word,segment"] := by
  constructor
  · simp only [transcription_base_parts, h]
    simp only [partsNamed_append, partsNamed_opt_text_ne, partsNamed_text_ne,
      partsNamed_file_ne, partsNamed_nil, partsNamed_text_eq,
      String.reduceBEq, List.append_nil, List.nil_append]
  · simp only [transcription_base_parts, minTranscription, opt_text_none,
      Option.map_none']
    simp only [partsNamed_append, partsNamed_opt_text_ne, partsNamed_text_ne,
      partsNamed_file_ne, partsNamed_nil, partsNamed_text_eq,
      String.reduceBEq, List.append_nil, List.nil_append]
    rfl

/-- Witness for C8: the theorem applied at a concrete request carrying
`timestamp_granularities = [word, segment]`. -/
theorem C8_timestamp_granularities_witness :
    partsNamed "timestamp_granularities"
        (transcription_base_parts sampleFilePart
          { minTranscription "audio.wav" "whisper-1" with
              timestamp_granularities := some ["word", "segment"] })
      = [FormPart.text "timestamp_granularities"
          (String.intercalate "," ["word", "segment"])] :=
  (C8_timestamp_granularities sampleFilePart
    { minTranscription "audio.wav" "whisper-1" with
        timestamp_granularities := some ["word", "segment"] }
    ["word", "segment"] rfl).1

/-- C10: each value of an accepted `extra_body` object is stringified via its
JSON textual serialization (`Value::to_string`): each top-level key becomes a
text part named by the key whose value is the JSON rendering of the value, so
a string value keeps its surrounding quote characters (key "a" with string
value "b" yields the part value "\"b\"", not the bare b), and booleans,
numbers and null yield their JSON literals. -/
theorem C10_extra_body_json_stringification (fp : ResolvedFilePart)
    (file model lit : String) (kvs : List (String × Json)) :
    transcription_parts fp
        { minTranscription file model with extra_body := some (Json.obj kvs) }
      = .ok ([FormPart.file "file" fp, FormPart.text "model" model]
          ++ kvs.map (fun kv => FormPart.text kv.1 kv.2.render))
    ∧ Json.render (Json.str "b") = "\"b\""
    ∧ (∀ s : String, Json.render (Json.str s) = "\"" ++ escapeJson s ++ "\"")
    ∧ Json.render (Json.bool true) = "true"
    ∧ Json.render (Json.bool false) = "false"
    ∧ Json.render Json.null = "null"
    ∧ Json.render (Json.num lit) = lit
    ∧ transcription_parts fp
        { minTranscription file model with
            extra_body := some (Json.obj [("a", Json.str "b")]) }
      = .ok [FormPart.file "file" fp, FormPart.text "model" model,
             FormPart.text "a" "\"b\""] := by
  have hb : Json.render (Json.str "b") = "\"b\"" := by
    rw [Json.render_str]
    rfl
  refine ⟨?_, hb, Json.render_str, ?_, ?_, Json.render_null,
          Json.render_num lit, ?_⟩
  · simp [transcription_parts, transcription_base_parts, minTranscription,
          opt_text]
  · rw [Json.render_bool]
    rfl
  · rw [Json.render_bool]
    rfl
  · simp [transcription_parts, transcription_base_parts, minTranscription,
          opt_text, hb]

end OpenAIAudio
